import Mathlib

/-!
Shallow embedding of the waiter / finder / resource-ID-codec patterns of the
terraform-provider-aws repository, together with the CRUD orchestration of the
Shield protection group, Route53 query log, EFS file system policy, QuickSight
group membership, CloudWatch Events rule, Route53 Recovery Control control
panel, EKS clusters data source and Connect contact flow lookup.

Go strings are Lean String values, Go multi-value returns are tuples, Go nil
pointers are Option.none, and Go errors are an explicit GoErr inductive carried
in an Option (none = nil error).  A Go nil-pointer dereference (panic) is made
explicit wherever it is reachable.
-/

namespace TfAws

/-- Model of a Go error value as used by the provider: the tfresource
NotFoundError sentinel, an AWS SDK awserr with a code and a message, the
plugin SDK timeout error produced by an exhausted retry window, or any other
opaque error. -/
inductive GoErr where
  | notFoundSentinel
  | awsError (code : String) (message : String)
  | timeoutSentinel
  | other (msg : String)
  deriving DecidableEq, Repr

/-- Rendering of an error for %s / %w interpolation in wrapped messages. -/
def GoErr.render : GoErr → String
  | .notFoundSentinel => "resource not found"
  | .awsError c m => c ++ ": " ++ m
  | .timeoutSentinel => "timeout while waiting for state"
  | .other m => m

/-- Go: does the (possibly nil) candidate string lead the subject list?
Mirrors the prefix test underlying strings.Contains. -/
def leadsWith : List Char → List Char → Bool
  | [], _ => true
  | _ :: _, [] => false
  | c :: cs, d :: ds => c == d && leadsWith cs ds

/-- Substring search over character lists, mirroring Go strings.Contains. -/
def hasSub (pat : List Char) : List Char → Bool
  | [] => pat.isEmpty
  | c :: rest => leadsWith pat (c :: rest) || hasSub pat rest

/-- Go strings.Contains s sub. -/
def strContains (s sub : String) : Bool :=
  hasSub sub.data s.data

/-- tfawserr.ErrCodeEquals: the error is an awserr whose code equals the
given code (false on a nil error). -/
def errCodeEquals (e : Option GoErr) (code : String) : Bool :=
  match e with
  | some (.awsError c _) => c == code
  | _ => false

/-- isAWSErr / tfawserr.ErrMessageContains: the error is an awserr whose code
equals the given code and whose message contains the given substring. -/
def errMessageContains (e : Option GoErr) (code msg : String) : Bool :=
  match e with
  | some (.awsError c m) => c == code && strContains m msg
  | _ => false

/-- tfresource.NotFound: the error wraps the NotFoundError sentinel. -/
def tfresourceNotFound (e : Option GoErr) : Bool :=
  match e with
  | some .notFoundSentinel => true
  | _ => false

/-- tfresource.TimedOut: the error is the retry-window timeout error. -/
def tfresourceTimedOut (e : Option GoErr) : Bool :=
  match e with
  | some .timeoutSentinel => true
  | _ => false

/-- aws.StringValue: dereference a possibly-nil *string, "" when nil. -/
def stringValue (p : Option String) : String :=
  p.getD ""

/-- Split a character list at the first occurrence of the separator:
none when the separator does not occur, otherwise the part before it and
the part after it. -/
def splitFirst (sep : Char) : List Char → Option (List Char × List Char)
  | [] => none
  | c :: rest =>
    if c = sep then some ([], rest)
    else
      match splitFirst sep rest with
      | none => none
      | some (pre, post) => some (c :: pre, post)

/-- Go strings.SplitN with a one-character separator and n ≥ 0: at most n
parts, the last part holding the unsplit remainder; n = 0 yields no parts. -/
def splitN (sep : Char) : Nat → List Char → List (List Char)
  | 0, _ => []
  | 1, s => [s]
  | n + 2, s =>
    match splitFirst sep s with
    | none => [s]
    | some (pre, post) => pre :: splitN sep (n + 1) post

/-- The composite ID written by resourceAwsQuickSightGroupMembershipCreate:
fmt.Sprintf "%s/%s/%s/%s" of account, namespace, group and member name. -/
def quickSightGroupMembershipID (awsAccountID ns groupName userName : String) : String :=
  awsAccountID ++ "/" ++ ns ++ "/" ++ groupName ++ "/" ++ userName

/-- The error message produced by the QuickSight membership ID parser. -/
def quickSightParseErrMsg (id : String) : String :=
  "unexpected format of ID (" ++ id ++
    "), expected AWS_ACCOUNT_ID/NAMESPACE/GROUP_NAME/USER_NAME"

/-- resourceAwsQuickSightGroupMembershipParseID: SplitN(id, "/", 4); error
with all components empty when fewer than four parts or any of the four parts
is empty, otherwise the four parts and a nil error. -/
def resourceAwsQuickSightGroupMembershipParseID (id : String) :
    String × String × String × String × Option String :=
  let parts := (splitN '/' 4 id.data).map String.mk
  if parts.length < 4 ∨ parts.getD 0 "" = "" ∨ parts.getD 1 "" = "" ∨
      parts.getD 2 "" = "" ∨ parts.getD 3 "" = "" then
    ("", "", "", "", some (quickSightParseErrMsg id))
  else
    (parts.getD 0 "", parts.getD 1 "", parts.getD 2 "", parts.getD 3 "", none)

lemma splitFirst_of_not_mem (sep : Char) (s : List Char) (h : sep ∉ s) :
    splitFirst sep s = none := by
  induction s with
  | nil => rfl
  | cons c rest ih =>
    have hc : ¬ c = sep := fun e => h (e ▸ List.mem_cons_self c rest)
    have h2 : sep ∉ rest := fun hm => h (List.mem_cons_of_mem c hm)
    simp [splitFirst, hc, ih h2]

lemma splitFirst_append (sep : Char) (pre post : List Char) (h : sep ∉ pre) :
    splitFirst sep (pre ++ sep :: post) = some (pre, post) := by
  induction pre with
  | nil => simp [splitFirst]
  | cons c cs ih =>
    have hc : ¬ c = sep := fun e => h (e ▸ List.mem_cons_self c cs)
    have h2 : sep ∉ cs := fun hm => h (List.mem_cons_of_mem c hm)
    simp [splitFirst, hc, ih h2]

lemma leadsWith_append (s b : List Char) : leadsWith s (s ++ b) = true := by
  induction s with
  | nil => rfl
  | cons c cs ih => simp [leadsWith, ih]

lemma hasSub_of_leadsWith (pat s : List Char) (h : leadsWith pat s = true) :
    hasSub pat s = true := by
  cases s with
  | nil =>
    cases pat with
    | nil => rfl
    | cons c cs => simp [leadsWith] at h
  | cons c rest => simp [hasSub, h]

lemma hasSub_append_right (pat t a : List Char) (h : hasSub pat t = true) :
    hasSub pat (a ++ t) = true := by
  induction a with
  | nil => simpa using h
  | cons c cs ih => simp [hasSub, ih]

lemma strContains_append (x pat : String) : strContains (x ++ pat) pat = true := by
  have h : hasSub pat.data pat.data = true := by
    have := hasSub_of_leadsWith pat.data (pat.data ++ []) (leadsWith_append pat.data [])
    simpa using this
  simpa [strContains, String.data_append] using hasSub_append_right pat.data pat.data x.data h

lemma quickSightParseErrMsg_decompose (id : String) :
    quickSightParseErrMsg id =
      ("unexpected format of ID (" ++ id ++ "), expected ") ++
        "AWS_ACCOUNT_ID/NAMESPACE/GROUP_NAME/USER_NAME" := by
  apply String.ext
  simp [quickSightParseErrMsg, String.data_append, List.append_assoc]

/-- C1: encoding four non-empty components, the first three of which contain
no slash, as the composite ID AWS_ACCOUNT_ID/NAMESPACE/GROUP_NAME/USER_NAME
and parsing it back recovers exactly the four components with a nil error. -/
theorem quicksight_membership_id_roundtrip (a ns g u : String)
    (ha : a ≠ "") (hns : ns ≠ "") (hg : g ≠ "") (hu : u ≠ "")
    (ha2 : '/' ∉ a.data) (hns2 : '/' ∉ ns.data) (hg2 : '/' ∉ g.data) :
    resourceAwsQuickSightGroupMembershipParseID
      (quickSightGroupMembershipID a ns g u) = (a, ns, g, u, none) := by
  have hslash : ("/" : String).data = ['/'] := by decide
  have hdata : (quickSightGroupMembershipID a ns g u).data
      = a.data ++ '/' :: (ns.data ++ '/' :: (g.data ++ '/' :: u.data)) := by
    simp [quickSightGroupMembershipID, String.data_append, hslash, List.append_assoc]
  have hsplit : splitN '/' 4 (quickSightGroupMembershipID a ns g u).data
      = [a.data, ns.data, g.data, u.data] := by
    rw [hdata]
    simp [splitN, splitFirst_append _ _ _ ha2, splitFirst_append _ _ _ hns2,
      splitFirst_append _ _ _ hg2]
  simp only [resourceAwsQuickSightGroupMembershipParseID, hsplit, List.map]
  have hmk : ∀ s : String, String.mk s.data = s := fun s => rfl
  simp [hmk, ha, hns, hg, hu]

/-- C2: parsing a composite membership ID that lacks the delimiter, or that
splits into fewer than four segments, or whose first four segments include an
empty one, yields four empty components and an error naming the expected
format AWS_ACCOUNT_ID/NAMESPACE/GROUP_NAME/USER_NAME. -/
theorem quicksight_parse_id_malformed (id : String)
    (h : '/' ∉ id.data ∨ (splitN '/' 4 id.data).length < 4 ∨
      ∃ i < 4, ((splitN '/' 4 id.data).map String.mk).getD i "" = "") :
    resourceAwsQuickSightGroupMembershipParseID id =
      ("", "", "", "", some (quickSightParseErrMsg id)) ∧
    strContains (quickSightParseErrMsg id)
      "AWS_ACCOUNT_ID/NAMESPACE/GROUP_NAME/USER_NAME" = true := by
  constructor
  · have hcond : ((splitN '/' 4 id.data).map String.mk).length < 4 ∨
        ((splitN '/' 4 id.data).map String.mk).getD 0 "" = "" ∨
        ((splitN '/' 4 id.data).map String.mk).getD 1 "" = "" ∨
        ((splitN '/' 4 id.data).map String.mk).getD 2 "" = "" ∨
        ((splitN '/' 4 id.data).map String.mk).getD 3 "" = "" := by
      rcases h with h | h | ⟨i, hi, he⟩
      · left
        have hsp : splitN '/' 4 id.data = [id.data] := by
          simp [splitN, splitFirst_of_not_mem '/' id.data h]
        simp [hsp]
      · left
        simpa using h
      · interval_cases i
        · exact Or.inr (Or.inl he)
        · exact Or.inr (Or.inr (Or.inl he))
        · exact Or.inr (Or.inr (Or.inr (Or.inl he)))
        · exact Or.inr (Or.inr (Or.inr (Or.inr he)))
    show (if ((splitN '/' 4 id.data).map String.mk).length < 4 ∨
        ((splitN '/' 4 id.data).map String.mk).getD 0 "" = "" ∨
        ((splitN '/' 4 id.data).map String.mk).getD 1 "" = "" ∨
        ((splitN '/' 4 id.data).map String.mk).getD 2 "" = "" ∨
        ((splitN '/' 4 id.data).map String.mk).getD 3 "" = "" then
        ("", "", "", "", some (quickSightParseErrMsg id))
      else
        (((splitN '/' 4 id.data).map String.mk).getD 0 "",
          ((splitN '/' 4 id.data).map String.mk).getD 1 "",
          ((splitN '/' 4 id.data).map String.mk).getD 2 "",
          ((splitN '/' 4 id.data).map String.mk).getD 3 "", none)) =
      ("", "", "", "", some (quickSightParseErrMsg id))
    rw [if_pos hcond]
  · rw [quickSightParseErrMsg_decompose]
    exact strContains_append _ _

/-- C1 witness: the round-trip theorem instantiated at concrete components. -/
theorem quicksight_membership_id_roundtrip_witness :
    resourceAwsQuickSightGroupMembershipParseID
      (quickSightGroupMembershipID "111122223333" "default" "grp" "user one") =
      ("111122223333", "default", "grp", "user one", none) :=
  quicksight_membership_id_roundtrip "111122223333" "default" "grp" "user one"
    (by decide) (by decide) (by decide) (by decide) (by decide) (by decide) (by decide)

/-- C2 witness: the malformed-ID theorem instantiated at an input with no
delimiter at all. -/
theorem quicksight_parse_id_malformed_witness :
    resourceAwsQuickSightGroupMembershipParseID "abc" =
      ("", "", "", "", some (quickSightParseErrMsg "abc")) ∧
    strContains (quickSightParseErrMsg "abc")
      "AWS_ACCOUNT_ID/NAMESPACE/GROUP_NAME/USER_NAME" = true :=
  quicksight_parse_id_malformed "abc" (Or.inl (by decide))

/-- fsx.Backup, as used by the FSx backup status refresh: a possibly-nil
Lifecycle string. -/
structure FsxBackup where
  Lifecycle : Option String
  deriving DecidableEq, Repr

/-- fsx.FileSystem, as used by the FSx file system status refresh. -/
structure FsxFileSystem where
  Lifecycle : Option String
  deriving DecidableEq, Repr

/-- servicediscovery.Operation, as used by the operation status refresh. -/
structure SdOperation where
  Status : Option String
  deriving DecidableEq, Repr

/-- waiter.BackupStatus refresh body, applied to the finder result
(output pointer, error): not-found gives (nil, "", nil), any other error is
propagated with nil object and empty status, otherwise the object and its
Lifecycle; none models the nil-pointer dereference on a nil object with a
nil error. -/
def BackupStatus (find : Option FsxBackup × Option GoErr) :
    Option (Option FsxBackup × String × Option GoErr) :=
  if tfresourceNotFound find.2 then some (none, "", none)
  else
    match find.2 with
    | some e => some (none, "", some e)
    | none =>
      match find.1 with
      | none => none
      | some output => some (some output, stringValue output.Lifecycle, none)

/-- waiter.FileSystemStatus refresh body, same shape as BackupStatus. -/
def FileSystemStatus (find : Option FsxFileSystem × Option GoErr) :
    Option (Option FsxFileSystem × String × Option GoErr) :=
  if tfresourceNotFound find.2 then some (none, "", none)
  else
    match find.2 with
    | some e => some (none, "", some e)
    | none =>
      match find.1 with
      | none => none
      | some output => some (some output, stringValue output.Lifecycle, none)

/-- waiter.OperationStatus refresh body for Service Discovery, returning the
operation Status field. -/
def OperationStatus (find : Option SdOperation × Option GoErr) :
    Option (Option SdOperation × String × Option GoErr) :=
  if tfresourceNotFound find.2 then some (none, "", none)
  else
    match find.2 with
    | some e => some (none, "", some e)
    | none =>
      match find.1 with
      | none => none
      | some output => some (some output, stringValue output.Status, none)

/-- The outcome of a resource Read: state cleared (SetId("") with nil error),
a wrapped error, or a successful read. -/
inductive ReadResult where
  | removed
  | err (msg : String)
  | ok
  deriving DecidableEq, Repr

/-- shield.ErrCodeResourceNotFoundException. -/
def shieldErrCodeResourceNotFoundException : String := "ResourceNotFoundException"

/-- resourceAwsShieldProtectionGroupRead error path: clears state when the
resource is not new and DescribeProtectionGroup failed with
ResourceNotFoundException; wraps any other describe error; wraps a tag
listing error on the success path. -/
def resourceAwsShieldProtectionGroupRead (id arn : String) (isNew : Bool)
    (describeErr : Option GoErr) (listTagsErr : Option GoErr) : ReadResult :=
  if !isNew && errCodeEquals describeErr shieldErrCodeResourceNotFoundException then
    .removed
  else
    match describeErr with
    | some e => .err ("error reading Shield Protection Group (" ++ id ++ "): " ++ e.render)
    | none =>
      match listTagsErr with
      | some e =>
        .err ("error listing tags for Shield Protection Group (" ++ arn ++ "): " ++ e.render)
      | none => .ok

/-- route53.ErrCodeNoSuchQueryLoggingConfig. -/
def route53ErrCodeNoSuchQueryLoggingConfig : String := "NoSuchQueryLoggingConfig"

/-- route53.ErrCodeNoSuchHostedZone. -/
def route53ErrCodeNoSuchHostedZone : String := "NoSuchHostedZone"

/-- resourceAwsRoute53QueryLogRead error path: on a GetQueryLoggingConfig
error, clears state when the code is NoSuchQueryLoggingConfig or
NoSuchHostedZone (with no newness check), otherwise wraps the error. -/
def resourceAwsRoute53QueryLogRead (id : String) (isNew : Bool)
    (getErr : Option GoErr) : ReadResult :=
  match getErr with
  | some e =>
    if errMessageContains (some e) route53ErrCodeNoSuchQueryLoggingConfig "" ||
        errMessageContains (some e) route53ErrCodeNoSuchHostedZone "" then
      .removed
    else .err ("Error reading Route53 query logging configuration: " ++ e.render)
  | none => .ok

/-- The outcome of a resource Delete: success or a wrapped error. -/
inductive DeleteResult where
  | ok
  | err (msg : String)
  deriving DecidableEq, Repr

/-- resourceAwsShieldProtectionGroupDelete: not-found is success; any other
error is wrapped with the resource type and identifier. -/
def resourceAwsShieldProtectionGroupDelete (id : String) (apiErr : Option GoErr) :
    DeleteResult :=
  if errCodeEquals apiErr shieldErrCodeResourceNotFoundException then .ok
  else
    match apiErr with
    | some e => .err ("error deleting Shield Protection Group (" ++ id ++ "): " ++ e.render)
    | none => .ok

/-- efs.ErrCodeFileSystemNotFound. -/
def efsErrCodeFileSystemNotFound : String := "FileSystemNotFound"

/-- resourceAwsEfsFileSystemPolicyDelete: FileSystemNotFound is success; any
other error is wrapped with the resource type and identifier. -/
def resourceAwsEfsFileSystemPolicyDelete (id : String) (apiErr : Option GoErr) :
    DeleteResult :=
  if errCodeEquals apiErr efsErrCodeFileSystemNotFound then .ok
  else
    match apiErr with
    | some e => .err ("error deleting EFS File System Policy (" ++ id ++ "): " ++ e.render)
    | none => .ok

/-- resourceAwsRoute53QueryLogDelete: NoSuchQueryLoggingConfig is success; any
other error is wrapped with the resource type and identifier. -/
def resourceAwsRoute53QueryLogDelete (id : String) (apiErr : Option GoErr) :
    DeleteResult :=
  if errMessageContains apiErr route53ErrCodeNoSuchQueryLoggingConfig "" then .ok
  else
    match apiErr with
    | some e =>
      .err ("error deleting Route53 query logging configuration (" ++ id ++ "): " ++ e.render)
    | none => .ok

/-- r53rcc.ControlPanel with its possibly-nil ARN. -/
structure ControlPanel where
  ControlPanelArn : Option String
  deriving DecidableEq, Repr

/-- r53rcc.CreateControlPanelOutput with its possibly-nil ControlPanel. -/
structure CreateControlPanelOutput where
  ControlPanel : Option ControlPanel
  deriving DecidableEq, Repr

/-- Outcome of the response-handling prefix of a Create function: a Go
nil-pointer panic, a wrapped error, or the resource ID that gets set. -/
inductive CreateStepResult where
  | panicked
  | err (msg : String)
  | idSet (id : String)
  deriving DecidableEq, Repr

/-- resourceAwsRoute53RecoveryControlConfigControlPanelCreate, from the
CreateControlPanel call through d.SetId: the statement
result := output.ControlPanel runs before the err nil-check, so a nil output
is a nil-pointer dereference (panicked) no matter what the error is. -/
def controlPanelCreateResponse (output : Option CreateControlPanelOutput)
    (apiErr : Option GoErr) : CreateStepResult :=
  match output with
  | none => .panicked
  | some o =>
    let result := o.ControlPanel
    match apiErr with
    | some e =>
      .err ("Error creating Route53 Recovery Control Config Control Panel: " ++ e.render)
    | none =>
      match result with
      | none => .err "Error creating Route53 Recovery Control Config Control Panel: empty response"
      | some r => .idSet (stringValue r.ControlPanelArn)

/-- The attribute names declared by the resourceAwsShieldProtectionGroup
schema. -/
def shieldProtectionGroupSchemaKeys : List String :=
  ["aggregation", "members", "pattern", "protection_group_id",
    "protection_group_arn", "resource_type", "tags", "tags_all"]

/-- The attribute under which resourceAwsShieldProtectionGroupRead stores the
protection group ARN. -/
def shieldReadArnKey : String := "protection_group_arn"

/-- Modelled from the spec: the attribute lookup of the declarative
configuration engine at the downstream boundary (schema.ResourceData.Get),
which is not part of this repository: it returns the stored value for an
attribute declared in the resource schema (the zero value "" when unset) and
nil for a key that is not declared in the schema. -/
def dGet (schemaKeys : List String) (state : List (String × String))
    (key : String) : Option String :=
  if schemaKeys.contains key then
    some (((state.find? (fun kv => kv.1 == key)).map Prod.snd).getD "")
  else none

/-- Outcome of the Shield protection group Update: a wrapped update error, a
Go panic, a ShieldUpdateTags call carrying the identifier it was given, or
direct delegation to Read when tags_all is unchanged. -/
inductive UpdateResult where
  | err (msg : String)
  | panicked
  | tagsIssued (identifier : String)
  | readDelegated
  deriving DecidableEq, Repr

/-- resourceAwsShieldProtectionGroupUpdate: after a successful
UpdateProtectionGroup call, a changed tags_all leads to
ShieldUpdateTags(conn, d.Get("arn").(string), o, n); the Get of the
undeclared key "arn" yields nil and the string type assertion panics. -/
def resourceAwsShieldProtectionGroupUpdate (id : String)
    (state : List (String × String)) (hasTagsAllChange : Bool)
    (updateErr : Option GoErr) : UpdateResult :=
  match updateErr with
  | some e => .err ("error updating Shield Protection Group (" ++ id ++ "): " ++ e.render)
  | none =>
    if hasTagsAllChange then
      match dGet shieldProtectionGroupSchemaKeys state "arn" with
      | none => .panicked
      | some arn => .tagsIssued arn
    else .readDelegated

/-- Result of a waiter run: target status reached (with the last observed
object), failure status observed, timeout elapsed, or a polling error. -/
inductive WaitResult (α : Type) where
  | success (obj : Option α)
  | failed (status : String)
  | timedOut
  | pollError (e : GoErr)
  deriving DecidableEq, Repr

/-- Modelled from the spec: the generic waiter
(resource.StateChangeConf.WaitForState of the plugin SDK, not part of this
repository), per spec section 4.1: given a polling function returning
(object, status string, error), block until the status is in the target set
(success), the status is in the failure set (error), the timeout elapses
(timeout error), or the polling function errors (propagate).  The polling
function is a pure sequence indexed by the poll number and the timeout is the
number of polls the window admits. -/
def waitForState {a : Type} (poll : Nat → Option a × String × Option GoErr)
    (target failure : List String) : Nat → Nat → WaitResult a
  | 0, _ => .timedOut
  | fuel + 1, i =>
    let r := poll i
    match r.2.2 with
    | some e => .pollError e
    | none =>
      if target.contains r.2.1 then .success r.1
      else if failure.contains r.2.1 then .failed r.2.1
      else waitForState poll target failure fuel (i + 1)

/-- The retryable-error classification inside the PutRule retry callback of
resourceAwsCloudWatchEventRuleCreate and Update: a ValidationException whose
message contains "cannot be assumed by principal". -/
def iamPropagationRetryable (e : Option GoErr) : Bool :=
  errMessageContains e "ValidationException" "cannot be assumed by principal"

/-- Modelled from the spec: resource.Retry of the plugin SDK (not part of
this repository), per spec sections 4.4 and 7(b): the callback is retried
while its error is classified retryable, within a bounded window; a
non-retryable error or success returns immediately; exhausting the window on
retryable errors surfaces the timeout error.  PutRule calls are a pure
sequence of error outcomes indexed by attempt number, and the window is the
number of retries it admits. -/
def retryPutRule (attempts : Nat → Option GoErr) : Nat → Nat → Option GoErr
  | 0, i =>
    match attempts i with
    | none => none
    | some e =>
      if iamPropagationRetryable (some e) then some GoErr.timeoutSentinel else some e
  | fuel + 1, i =>
    match attempts i with
    | none => none
    | some e =>
      if iamPropagationRetryable (some e) then retryPutRule attempts fuel (i + 1)
      else some e

/-- Modelled from the spec: tfevents.RuleCreateResourceID (not part of this
repository), per spec section 4.3: packs the event bus name and the rule name
into the composite rule resource ID. -/
def ruleCreateResourceID (eventBusName ruleName : String) : String :=
  eventBusName ++ "/" ++ ruleName

/-- Outcome of the CloudWatch Events rule Create: a wrapped error, or the
composite resource ID set before delegating to Read. -/
inductive EventRuleCreateResult where
  | err (msg : String)
  | created (id : String)
  deriving DecidableEq, Repr

/-- resourceAwsCloudWatchEventRuleCreate from the PutRule retry loop to
d.SetId: retry within the IAM propagation window, one extra non-retried
PutRule attempt when the window timed out, wrap any remaining error, and on
success set the composite ID from the event bus name and the rule name. -/
def resourceAwsCloudWatchEventRuleCreate (eventBusName ruleName : String)
    (window : Nat) (attempts : Nat → Option GoErr) : EventRuleCreateResult :=
  let retryErr := retryPutRule attempts window 0
  let finalErr := if tfresourceTimedOut retryErr then attempts (window + 1) else retryErr
  match finalErr with
  | some e => .err ("error creating CloudWatch Events Rule (" ++ ruleName ++ "): " ++ e.render)
  | none => .created (ruleCreateResourceID eventBusName ruleName)

/-- Outcome of the CloudWatch Events rule Update around the same retry loop:
a wrapped error or delegation to Read (no ID is set on update). -/
inductive EventRuleUpdateResult where
  | err (msg : String)
  | updated
  deriving DecidableEq, Repr

/-- resourceAwsCloudWatchEventRuleUpdate around the PutRule retry loop: same
retry-and-one-extra-attempt shape as Create, wrapping errors with the
resource ID. -/
def resourceAwsCloudWatchEventRuleUpdate (id : String) (window : Nat)
    (attempts : Nat → Option GoErr) : EventRuleUpdateResult :=
  let retryErr := retryPutRule attempts window 0
  let finalErr := if tfresourceTimedOut retryErr then attempts (window + 1) else retryErr
  match finalErr with
  | some e => .err ("error updating CloudWatch Events Rule (" ++ id ++ "): " ++ e.render)
  | none => .updated

/-- A page of eks.ListClustersOutput: the cluster name list. -/
structure EksListClustersPage where
  Clusters : List String
  deriving DecidableEq, Repr

/-- Modelled from the spec: the AWS SDK ListPages pagination driver (not part
of this repository), per spec section 4.2: pages are delivered in order to
the callback together with an is-this-the-last-page flag, and iteration stops
when the callback returns false or after the last page.  The accumulator
threads the state the Go closure captures. -/
def runPages {a p : Type} (fn : a → Option p → Bool → a × Bool) :
    a → List (Option p) → a
  | acc, [] => acc
  | acc, page :: rest =>
    let r := fn acc page rest.isEmpty
    if r.2 then runPages fn r.1 rest else r.1

/-- The ListClustersPages callback of dataSourceAwsEksClustersRead: skip nil
pages, append each page's Clusters, continue until the last page. -/
def eksClustersPageFn (clusters : List String) (page : Option EksListClustersPage)
    (lastPage : Bool) : List String × Bool :=
  match page with
  | none => (clusters, !lastPage)
  | some pg => (clusters ++ pg.Clusters, !lastPage)

/-- dataSourceAwsEksClustersRead pagination: aggregate cluster names across
all pages. -/
def dataSourceAwsEksClustersRead (pages : List (Option EksListClustersPage)) :
    List String :=
  runPages eksClustersPageFn [] pages

/-- connect.ContactFlowSummary with its possibly-nil name and id. -/
structure ContactFlowSummary where
  Name : Option String
  Id : Option String
  deriving DecidableEq, Repr

/-- A page of connect.ListContactFlowsOutput: possibly-nil summaries. -/
structure ListContactFlowsPage where
  ContactFlowSummaryList : List (Option ContactFlowSummary)
  deriving DecidableEq, Repr

/-- The inner loop of the ListContactFlowsPages callback: first non-nil
summary in the page whose Name dereferences to the requested name. -/
def findFlowInPage (name : String) :
    List (Option ContactFlowSummary) → Option ContactFlowSummary
  | [] => none
  | none :: rest => findFlowInPage name rest
  | some cf :: rest =>
    if stringValue cf.Name == name then some cf else findFlowInPage name rest

/-- The ListContactFlowsPages callback of
dataSourceAwsConnectGetConnectContactFlowSummaryByName: skip nil pages, stop
as soon as a summary with the requested name is found, else continue until
the last page. -/
def connectFlowPageFn (name : String) (result : Option ContactFlowSummary)
    (page : Option ListContactFlowsPage) (lastPage : Bool) :
    Option ContactFlowSummary × Bool :=
  match page with
  | none => (result, !lastPage)
  | some pg =>
    match findFlowInPage name pg.ContactFlowSummaryList with
    | some cf => (some cf, false)
    | none => (result, !lastPage)

/-- dataSourceAwsConnectGetConnectContactFlowSummaryByName pagination: the
first matching contact flow summary across pages, none when no page
matches. -/
def dataSourceAwsConnectGetConnectContactFlowSummaryByName (name : String)
    (pages : List (Option ListContactFlowsPage)) : Option ContactFlowSummary :=
  runPages (connectFlowPageFn name) none pages

/-- Specification-level first match across pages, for comparison with the
pagination loop. -/
def firstFlowMatch (name : String) :
    List (Option ListContactFlowsPage) → Option ContactFlowSummary
  | [] => none
  | none :: rest => firstFlowMatch name rest
  | some pg :: rest =>
    match findFlowInPage name pg.ContactFlowSummaryList with
    | some cf => some cf
    | none => firstFlowMatch name rest

/-- C3: each status-polling refresh function (FSx BackupStatus, FSx
FileSystemStatus, Service Discovery OperationStatus) maps a not-found finder
result to a nil object, empty status and nil error, propagates any other
finder error unchanged with a nil object and empty status, and otherwise
returns the fetched object together with its lifecycle/status string. -/
theorem status_refresh_contract (outB : Option FsxBackup)
    (outF : Option FsxFileSystem) (outO : Option SdOperation) (e : GoErr)
    (b : FsxBackup) (f : FsxFileSystem) (o : SdOperation)
    (he : tfresourceNotFound (some e) = false) :
    BackupStatus (outB, some GoErr.notFoundSentinel) = some (none, "", none) ∧
    BackupStatus (outB, some e) = some (none, "", some e) ∧
    BackupStatus (some b, none) = some (some b, stringValue b.Lifecycle, none) ∧
    FileSystemStatus (outF, some GoErr.notFoundSentinel) = some (none, "", none) ∧
    FileSystemStatus (outF, some e) = some (none, "", some e) ∧
    FileSystemStatus (some f, none) = some (some f, stringValue f.Lifecycle, none) ∧
    OperationStatus (outO, some GoErr.notFoundSentinel) = some (none, "", none) ∧
    OperationStatus (outO, some e) = some (none, "", some e) ∧
    OperationStatus (some o, none) = some (some o, stringValue o.Status, none) := by
  have hnf : tfresourceNotFound (some GoErr.notFoundSentinel) = true := rfl
  have hnone : tfresourceNotFound (none : Option GoErr) = false := rfl
  refine ⟨?_, ?_, ?_, ?_, ?_, ?_, ?_, ?_, ?_⟩ <;>
    simp [BackupStatus, FileSystemStatus, OperationStatus, he, hnf, hnone]

/-- C3 witness: the refresh contract at a concrete finder outcome for each of
the three cases and three functions. -/
theorem status_refresh_contract_witness :
    BackupStatus (none, some GoErr.notFoundSentinel) = some (none, "", none) ∧
    FileSystemStatus (none, some (GoErr.awsError "Throttling" "Rate exceeded")) =
      some (none, "", some (GoErr.awsError "Throttling" "Rate exceeded")) ∧
    OperationStatus (some ⟨some "SUCCESS"⟩, none) =
      some (some ⟨some "SUCCESS"⟩, "SUCCESS", none) := by
  have h := status_refresh_contract none none none
    (GoErr.awsError "Throttling" "Rate exceeded") ⟨some "AVAILABLE"⟩
    ⟨some "AVAILABLE"⟩ ⟨some "SUCCESS"⟩ rfl
  exact ⟨h.1, h.2.2.2.2.1, h.2.2.2.2.2.2.2.2⟩

lemma hasSub_sandwich (a s b : List Char) : hasSub s (a ++ (s ++ b)) = true :=
  hasSub_append_right s (s ++ b) a
    (hasSub_of_leadsWith s (s ++ b) (leadsWith_append s b))

lemma tfresourceTimedOut_some_false (e : GoErr) (h : e ≠ GoErr.timeoutSentinel) :
    tfresourceTimedOut (some e) = false := by
  cases e with
  | timeoutSentinel => exact absurd rfl h
  | notFoundSentinel => rfl
  | awsError c m => rfl
  | other m => rfl

/-- C4 counterexample: the Route53 query log Read, on a newly created
resource whose lookup fails with NoSuchQueryLoggingConfig, clears the state
and returns a nil error instead of the hard error the claim demands. -/
theorem route53_query_log_read_new_resource_counterexample :
    resourceAwsRoute53QueryLogRead "cfg-1" true
      (some (GoErr.awsError "NoSuchQueryLoggingConfig" "no query logging config")) =
      ReadResult.removed ∧
    resourceAwsRoute53QueryLogRead "cfg-1" true
      (some (GoErr.awsError "NoSuchQueryLoggingConfig" "no query logging config")) ≠
      ReadResult.err ("Error reading Route53 query logging configuration: " ++
        (GoErr.awsError "NoSuchQueryLoggingConfig" "no query logging config").render) := by
  constructor
  · rfl
  · decide

/-- C4 amended: on a not-found lookup the Shield protection group Read clears
the state with a nil error when the resource is not newly created and returns
the wrapped hard error when it is newly created; the Route53 query log Read,
however, clears the state on its not-found codes regardless of whether the
resource is newly created. -/
theorem read_not_found_handling (id arn : String) (e1 e2 : GoErr)
    (tagsErr : Option GoErr)
    (h1 : errCodeEquals (some e1) shieldErrCodeResourceNotFoundException = true)
    (h2 : (errMessageContains (some e2) route53ErrCodeNoSuchQueryLoggingConfig "" ||
        errMessageContains (some e2) route53ErrCodeNoSuchHostedZone "") = true) :
    resourceAwsShieldProtectionGroupRead id arn false (some e1) tagsErr =
      ReadResult.removed ∧
    resourceAwsShieldProtectionGroupRead id arn true (some e1) tagsErr =
      ReadResult.err ("error reading Shield Protection Group (" ++ id ++ "): " ++
        e1.render) ∧
    (∀ isNew : Bool,
      resourceAwsRoute53QueryLogRead id isNew (some e2) = ReadResult.removed) := by
  refine ⟨?_, ?_, ?_⟩
  · simp [resourceAwsShieldProtectionGroupRead, h1]
  · simp [resourceAwsShieldProtectionGroupRead, h1]
  · intro isNew
    simp [resourceAwsRoute53QueryLogRead, h2]

/-- C4 witness: the amended Read behavior at concrete errors. -/
theorem read_not_found_handling_witness :
    resourceAwsShieldProtectionGroupRead "pg-1" "arn-1" false
      (some (GoErr.awsError "ResourceNotFoundException" "gone")) none =
      ReadResult.removed ∧
    resourceAwsShieldProtectionGroupRead "pg-1" "arn-1" true
      (some (GoErr.awsError "ResourceNotFoundException" "gone")) none =
      ReadResult.err ("error reading Shield Protection Group (" ++ "pg-1" ++ "): " ++
        (GoErr.awsError "ResourceNotFoundException" "gone").render) ∧
    (∀ isNew : Bool,
      resourceAwsRoute53QueryLogRead "pg-1" isNew
        (some (GoErr.awsError "NoSuchHostedZone" "no zone")) = ReadResult.removed) :=
  read_not_found_handling "pg-1" "arn-1"
    (GoErr.awsError "ResourceNotFoundException" "gone")
    (GoErr.awsError "NoSuchHostedZone" "no zone") none (by decide) (by decide)

/-- C5: each Delete (Shield protection group, EFS file system policy, Route53
query log) returns success on a nil error and on the service's
not-found/already-gone error code, and wraps any other error with the
resource type and the identifier. -/
theorem delete_not_found_is_success (id : String) (e1 e2 e3 f1 f2 f3 : GoErr)
    (h1 : errCodeEquals (some e1) shieldErrCodeResourceNotFoundException = true)
    (h2 : errCodeEquals (some e2) efsErrCodeFileSystemNotFound = true)
    (h3 : errMessageContains (some e3) route53ErrCodeNoSuchQueryLoggingConfig "" = true)
    (h4 : errCodeEquals (some f1) shieldErrCodeResourceNotFoundException = false)
    (h5 : errCodeEquals (some f2) efsErrCodeFileSystemNotFound = false)
    (h6 : errMessageContains (some f3) route53ErrCodeNoSuchQueryLoggingConfig "" = false) :
    resourceAwsShieldProtectionGroupDelete id none = DeleteResult.ok ∧
    resourceAwsEfsFileSystemPolicyDelete id none = DeleteResult.ok ∧
    resourceAwsRoute53QueryLogDelete id none = DeleteResult.ok ∧
    resourceAwsShieldProtectionGroupDelete id (some e1) = DeleteResult.ok ∧
    resourceAwsEfsFileSystemPolicyDelete id (some e2) = DeleteResult.ok ∧
    resourceAwsRoute53QueryLogDelete id (some e3) = DeleteResult.ok ∧
    (resourceAwsShieldProtectionGroupDelete id (some f1) =
      DeleteResult.err ("error deleting Shield Protection Group (" ++ id ++ "): " ++
        f1.render) ∧
      strContains ("error deleting Shield Protection Group (" ++ id ++ "): " ++
        f1.render) id = true) ∧
    (resourceAwsEfsFileSystemPolicyDelete id (some f2) =
      DeleteResult.err ("error deleting EFS File System Policy (" ++ id ++ "): " ++
        f2.render) ∧
      strContains ("error deleting EFS File System Policy (" ++ id ++ "): " ++
        f2.render) id = true) ∧
    (resourceAwsRoute53QueryLogDelete id (some f3) =
      DeleteResult.err ("error deleting Route53 query logging configuration (" ++
        id ++ "): " ++ f3.render) ∧
      strContains ("error deleting Route53 query logging configuration (" ++
        id ++ "): " ++ f3.render) id = true) := by
  refine ⟨?_, ?_, ?_, ?_, ?_, ?_, ⟨?_, ?_⟩, ⟨?_, ?_⟩, ⟨?_, ?_⟩⟩
  · rfl
  · rfl
  · rfl
  · simp [resourceAwsShieldProtectionGroupDelete, h1]
  · simp [resourceAwsEfsFileSystemPolicyDelete, h2]
  · simp [resourceAwsRoute53QueryLogDelete, h3]
  · simp [resourceAwsShieldProtectionGroupDelete, h4]
  · simpa [strContains, String.data_append, List.append_assoc] using
      hasSub_sandwich ("error deleting Shield Protection Group (").data id.data
        (("): ").data ++ (GoErr.render f1).data)
  · simp [resourceAwsEfsFileSystemPolicyDelete, h5]
  · simpa [strContains, String.data_append, List.append_assoc] using
      hasSub_sandwich ("error deleting EFS File System Policy (").data id.data
        (("): ").data ++ (GoErr.render f2).data)
  · simp [resourceAwsRoute53QueryLogDelete, h6]
  · simpa [strContains, String.data_append, List.append_assoc] using
      hasSub_sandwich ("error deleting Route53 query logging configuration (").data
        id.data (("): ").data ++ (GoErr.render f3).data)

/-- C5 witness: the Delete contract at concrete not-found and other errors. -/
theorem delete_not_found_is_success_witness :
    resourceAwsShieldProtectionGroupDelete "res-1" none = DeleteResult.ok ∧
    resourceAwsEfsFileSystemPolicyDelete "res-1" none = DeleteResult.ok ∧
    resourceAwsRoute53QueryLogDelete "res-1" none = DeleteResult.ok ∧
    resourceAwsShieldProtectionGroupDelete "res-1"
      (some (GoErr.awsError "ResourceNotFoundException" "gone")) = DeleteResult.ok ∧
    resourceAwsEfsFileSystemPolicyDelete "res-1"
      (some (GoErr.awsError "FileSystemNotFound" "gone")) = DeleteResult.ok ∧
    resourceAwsRoute53QueryLogDelete "res-1"
      (some (GoErr.awsError "NoSuchQueryLoggingConfig" "gone")) = DeleteResult.ok ∧
    (resourceAwsShieldProtectionGroupDelete "res-1" (some (GoErr.other "boom")) =
      DeleteResult.err ("error deleting Shield Protection Group (" ++ "res-1" ++
        "): " ++ (GoErr.other "boom").render) ∧
      strContains ("error deleting Shield Protection Group (" ++ "res-1" ++ "): " ++
        (GoErr.other "boom").render) "res-1" = true) ∧
    (resourceAwsEfsFileSystemPolicyDelete "res-1" (some (GoErr.other "boom")) =
      DeleteResult.err ("error deleting EFS File System Policy (" ++ "res-1" ++
        "): " ++ (GoErr.other "boom").render) ∧
      strContains ("error deleting EFS File System Policy (" ++ "res-1" ++ "): " ++
        (GoErr.other "boom").render) "res-1" = true) ∧
    (resourceAwsRoute53QueryLogDelete "res-1" (some (GoErr.other "boom")) =
      DeleteResult.err ("error deleting Route53 query logging configuration (" ++
        "res-1" ++ "): " ++ (GoErr.other "boom").render) ∧
      strContains ("error deleting Route53 query logging configuration (" ++
        "res-1" ++ "): " ++ (GoErr.other "boom").render) "res-1" = true) :=
  delete_not_found_is_success "res-1"
    (GoErr.awsError "ResourceNotFoundException" "gone")
    (GoErr.awsError "FileSystemNotFound" "gone")
    (GoErr.awsError "NoSuchQueryLoggingConfig" "gone")
    (GoErr.other "boom") (GoErr.other "boom") (GoErr.other "boom")
    (by decide) (by decide) (by decide) (by decide) (by decide) (by decide)

/-- C9: in the Route53 Recovery Control control panel Create, the field
access output.ControlPanel runs before the err nil-check, so a failed
CreateControlPanel call returning a nil output panics and never reaches the
wrapped "Error creating" branch; that error branch is reached exactly when
the response value is non-nil. -/
theorem control_panel_create_err_branch_needs_output :
    (∀ e : GoErr,
      controlPanelCreateResponse none (some e) = CreateStepResult.panicked) ∧
    (∀ (o : CreateControlPanelOutput) (e : GoErr),
      controlPanelCreateResponse (some o) (some e) =
        CreateStepResult.err
          ("Error creating Route53 Recovery Control Config Control Panel: " ++
            e.render)) := by
  constructor
  · intro e
    rfl
  · intro o e
    rfl

/-- C10 counterexample: with the ARN stored (by Read) under
protection_group_arn and tags_all changed, the Shield protection group
Update panics on the nil type assertion of d.Get("arn"); it does not call
ShieldUpdateTags with the empty-string identifier the claim asserts. -/
theorem shield_update_get_arn_counterexample :
    resourceAwsShieldProtectionGroupUpdate "pg-1"
      [("protection_group_arn", "arn:aws:shield::111122223333:protection-group/pg-1")]
      true none = UpdateResult.panicked ∧
    resourceAwsShieldProtectionGroupUpdate "pg-1"
      [("protection_group_arn", "arn:aws:shield::111122223333:protection-group/pg-1")]
      true none ≠ UpdateResult.tagsIssued "" := by
  constructor
  · rfl
  · decide

/-- C10 amended: the Shield protection group schema declares no attribute
named "arn" (the ARN is stored by Read under protection_group_arn), so
d.Get("arn") yields nil, the string type assertion panics whenever tags_all
has changed after a successful update call, and ShieldUpdateTags is never
invoked, in particular never with the resource's actual ARN. -/
theorem shield_update_tags_never_uses_arn (id : String)
    (state : List (String × String)) :
    shieldProtectionGroupSchemaKeys.contains "arn" = false ∧
    shieldReadArnKey ≠ "arn" ∧
    dGet shieldProtectionGroupSchemaKeys state "arn" = none ∧
    resourceAwsShieldProtectionGroupUpdate id state true none =
      UpdateResult.panicked ∧
    (∀ a : String,
      resourceAwsShieldProtectionGroupUpdate id state true none ≠
        UpdateResult.tagsIssued a) := by
  have hc : shieldProtectionGroupSchemaKeys.contains "arn" = false := by decide
  have hget : dGet shieldProtectionGroupSchemaKeys state "arn" = none := by
    simp [dGet]
    decide
  refine ⟨hc, by decide, hget, ?_, ?_⟩
  · simp [resourceAwsShieldProtectionGroupUpdate, hget]
  · intro a
    simp [resourceAwsShieldProtectionGroupUpdate, hget]

lemma runPages_cons {a p : Type} (fn : a → Option p → Bool → a × Bool)
    (acc : a) (page : Option p) (rest : List (Option p)) :
    runPages fn acc (page :: rest) =
      if (fn acc page rest.isEmpty).2 then
        runPages fn (fn acc page rest.isEmpty).1 rest
      else (fn acc page rest.isEmpty).1 := rfl

lemma runPages_eks_append (pages : List (Option EksListClustersPage)) :
    ∀ acc : List String,
      runPages eksClustersPageFn acc pages =
        acc ++ ((pages.filterMap id).map EksListClustersPage.Clusters).join := by
  induction pages with
  | nil =>
    intro acc
    simp [runPages]
  | cons p rest ih =>
    intro acc
    rw [runPages_cons]
    cases p with
    | none =>
      cases rest with
      | nil => simp [eksClustersPageFn, runPages]
      | cons q qs =>
        simp only [eksClustersPageFn, List.isEmpty_cons, Bool.not_false, if_true]
        simpa using ih acc
    | some pg =>
      cases rest with
      | nil => simp [eksClustersPageFn, runPages]
      | cons q qs =>
        simp only [eksClustersPageFn, List.isEmpty_cons, Bool.not_false, if_true]
        rw [ih (acc ++ pg.Clusters)]
        simp [List.append_assoc]

lemma runPages_connect_eq_firstFlowMatch (name : String)
    (pages : List (Option ListContactFlowsPage)) :
    runPages (connectFlowPageFn name) none pages = firstFlowMatch name pages := by
  induction pages with
  | nil => rfl
  | cons p rest ih =>
    rw [runPages_cons]
    cases p with
    | none =>
      cases rest with
      | nil => simp [connectFlowPageFn, runPages, firstFlowMatch]
      | cons q qs =>
        simp only [connectFlowPageFn, List.isEmpty_cons, Bool.not_false, if_true]
        simpa [firstFlowMatch] using ih
    | some pg =>
      cases hf : findFlowInPage name pg.ContactFlowSummaryList with
      | some cf =>
        simp [connectFlowPageFn, hf, firstFlowMatch]
      | none =>
        cases rest with
        | nil => simp [connectFlowPageFn, hf, runPages, firstFlowMatch]
        | cons q qs =>
          simp only [connectFlowPageFn, hf, List.isEmpty_cons, Bool.not_false, if_true]
          simpa [firstFlowMatch, hf] using ih

lemma firstFlowMatch_append_of_found (name : String)
    (pages extra : List (Option ListContactFlowsPage)) (cf : ContactFlowSummary)
    (h : firstFlowMatch name pages = some cf) :
    firstFlowMatch name (pages ++ extra) = some cf := by
  induction pages with
  | nil => simp [firstFlowMatch] at h
  | cons p rest ih =>
    cases p with
    | none =>
      simp only [firstFlowMatch] at h
      simpa [firstFlowMatch] using ih h
    | some pg =>
      cases hf : findFlowInPage name pg.ContactFlowSummaryList with
      | some cf2 =>
        simp [firstFlowMatch, hf] at h
        simp [firstFlowMatch, hf, h]
      | none =>
        simp only [firstFlowMatch, hf] at h
        simpa [firstFlowMatch, hf] using ih h

/-- C8: the EKS clusters data-source read returns the concatenation, in page
order, of the Clusters lists of all non-nil pages; the Connect contact-flow
by-name lookup returns the first matching summary across pages (nil, with no
error, when no page matches) and, having found a match, is insensitive to any
pages that would follow. -/
theorem pagination_finder_contract (pages : List (Option EksListClustersPage))
    (name : String) (gpages fpages extra : List (Option ListContactFlowsPage))
    (cf : ContactFlowSummary) (h : firstFlowMatch name fpages = some cf) :
    dataSourceAwsEksClustersRead pages =
      ((pages.filterMap id).map EksListClustersPage.Clusters).join ∧
    dataSourceAwsConnectGetConnectContactFlowSummaryByName name gpages =
      firstFlowMatch name gpages ∧
    dataSourceAwsConnectGetConnectContactFlowSummaryByName name (fpages ++ extra) =
      some cf := by
  refine ⟨?_, ?_, ?_⟩
  · simpa [dataSourceAwsEksClustersRead] using runPages_eks_append pages []
  · exact runPages_connect_eq_firstFlowMatch name gpages
  · rw [dataSourceAwsConnectGetConnectContactFlowSummaryByName,
      runPages_connect_eq_firstFlowMatch]
    exact firstFlowMatch_append_of_found name fpages extra cf h

/-- C8 witness: the pagination contract at concrete pages, with a nil page, a
match on the second flow page, and a trailing page that is never visited. -/
theorem pagination_finder_contract_witness :
    dataSourceAwsEksClustersRead
      [some ⟨["alpha", "beta"]⟩, none, some ⟨["gamma"]⟩] =
      ((([some ⟨["alpha", "beta"]⟩, none,
        some ⟨["gamma"]⟩] : List (Option EksListClustersPage)).filterMap id).map
          EksListClustersPage.Clusters).join ∧
    dataSourceAwsConnectGetConnectContactFlowSummaryByName "flow"
      [some ⟨[some ⟨some "other", some "1"⟩]⟩] =
      firstFlowMatch "flow" [some ⟨[some ⟨some "other", some "1"⟩]⟩] ∧
    dataSourceAwsConnectGetConnectContactFlowSummaryByName "flow"
      ([none, some ⟨[none, some ⟨some "flow", some "2"⟩]⟩] ++
        [some ⟨[some ⟨some "flow", some "3"⟩]⟩]) =
      some ⟨some "flow", some "2"⟩ :=
  pagination_finder_contract [some ⟨["alpha", "beta"]⟩, none, some ⟨["gamma"]⟩]
    "flow" [some ⟨[some ⟨some "other", some "1"⟩]⟩]
    [none, some ⟨[none, some ⟨some "flow", some "2"⟩]⟩]
    [some ⟨[some ⟨some "flow", some "3"⟩]⟩] ⟨some "flow", some "2"⟩ (by decide)

lemma waitForState_succ_unfold {a : Type}
    (poll : Nat → Option a × String × Option GoErr)
    (target failure : List String) (fuel i : Nat) :
    waitForState poll target failure (fuel + 1) i =
      match (poll i).2.2 with
      | some e => WaitResult.pollError e
      | none =>
        if target.contains (poll i).2.1 then WaitResult.success (poll i).1
        else if failure.contains (poll i).2.1 then WaitResult.failed (poll i).2.1
        else waitForState poll target failure fuel (i + 1) := rfl

lemma waitForState_skip {a : Type}
    (poll : Nat → Option a × String × Option GoErr)
    (target failure : List String) :
    ∀ (j fuel i : Nat), j ≤ fuel →
      (∀ k, k < j → (poll (i + k)).2.2 = none ∧
        target.contains (poll (i + k)).2.1 = false ∧
        failure.contains (poll (i + k)).2.1 = false) →
      waitForState poll target failure fuel i =
        waitForState poll target failure (fuel - j) (i + j) := by
  intro j
  induction j with
  | zero =>
    intro fuel i _ _
    simp
  | succ j ih =>
    intro fuel i hle hind
    cases fuel with
    | zero => omega
    | succ f =>
      obtain ⟨h1, h2, h3⟩ := hind 0 (Nat.succ_pos j)
      rw [waitForState_succ_unfold]
      simp only [Nat.add_zero] at h1 h2 h3
      rw [h1, h2, h3]
      simp only [Bool.false_eq_true, if_false]
      have := ih f (i + 1) (by omega)
        (fun k hk => by
          have := hind (k + 1) (by omega)
          simpa [Nat.add_assoc, Nat.add_comm 1 k] using this)
      rw [this]
      congr 1
      · omega
      · omega

/-- C6: the waiter returns the last observed object with no error when the
polling function first reaches a target status within the window, an error
when it first reaches a failure status, a propagated error when the poll
itself errors, and a timeout error when every poll within the window is
indecisive. -/
theorem waiter_contract {a : Type}
    (poll pollT : Nat → Option a × String × Option GoErr)
    (target failure targetT failureT : List String) (fuel fuelT j : Nat)
    (hj : j < fuel)
    (hpre : ∀ k, k < j → (poll k).2.2 = none ∧
      target.contains (poll k).2.1 = false ∧
      failure.contains (poll k).2.1 = false)
    (htime : ∀ k, k < fuelT → (pollT k).2.2 = none ∧
      targetT.contains (pollT k).2.1 = false ∧
      failureT.contains (pollT k).2.1 = false) :
    (∀ e, (poll j).2.2 = some e →
      waitForState poll target failure fuel 0 = WaitResult.pollError e) ∧
    ((poll j).2.2 = none → target.contains (poll j).2.1 = true →
      waitForState poll target failure fuel 0 = WaitResult.success (poll j).1) ∧
    ((poll j).2.2 = none → target.contains (poll j).2.1 = false →
      failure.contains (poll j).2.1 = true →
      waitForState poll target failure fuel 0 = WaitResult.failed (poll j).2.1) ∧
    waitForState pollT targetT failureT fuelT 0 = WaitResult.timedOut := by
  have hskip : waitForState poll target failure fuel 0 =
      waitForState poll target failure (fuel - j) j := by
    have := waitForState_skip poll target failure j fuel 0 (by omega)
      (fun k hk => by simpa using hpre k hk)
    simpa using this
  obtain ⟨m, hm⟩ : ∃ m, fuel - j = m + 1 := ⟨fuel - j - 1, by omega⟩
  refine ⟨?_, ?_, ?_, ?_⟩
  · intro e he
    rw [hskip, hm, waitForState_succ_unfold, he]
  · intro he ht
    rw [hskip, hm, waitForState_succ_unfold, he]
    show (if target.contains (poll j).2.1 then WaitResult.success (poll j).1
      else if failure.contains (poll j).2.1 then WaitResult.failed (poll j).2.1
      else waitForState poll target failure m (j + 1)) = WaitResult.success (poll j).1
    rw [ht]
    simp
  · intro he ht hf
    rw [hskip, hm, waitForState_succ_unfold, he]
    show (if target.contains (poll j).2.1 then WaitResult.success (poll j).1
      else if failure.contains (poll j).2.1 then WaitResult.failed (poll j).2.1
      else waitForState poll target failure m (j + 1)) = WaitResult.failed (poll j).2.1
    rw [ht, hf]
    simp
  · have := waitForState_skip pollT targetT failureT fuelT fuelT 0 (by omega)
      (fun k hk => by simpa using htime k hk)
    simpa [waitForState] using this

/-- A poll sequence that reports CREATING once and then AVAILABLE. -/
def pollSeqSuccess : Nat → Option Nat × String × Option GoErr
  | 0 => (none, "CREATING", none)
  | _ + 1 => (some 7, "AVAILABLE", none)

/-- A poll sequence that reports CREATING once and then FAILED. -/
def pollSeqFailed : Nat → Option Nat × String × Option GoErr
  | 0 => (none, "CREATING", none)
  | _ + 1 => (none, "FAILED", none)

/-- A poll sequence that reports CREATING once and then errors. -/
def pollSeqErr : Nat → Option Nat × String × Option GoErr
  | 0 => (none, "CREATING", none)
  | _ + 1 => (none, "", some (GoErr.other "boom"))

/-- A poll sequence that reports CREATING forever. -/
def pollSeqPending : Nat → Option Nat × String × Option GoErr :=
  fun _ => (none, "CREATING", none)

/-- C6 witness: the waiter contract at four concrete poll sequences, one per
outcome. -/
theorem waiter_contract_witness :
    waitForState pollSeqSuccess ["AVAILABLE"] ["FAILED"] 3 0 =
      WaitResult.success (some 7) ∧
    waitForState pollSeqFailed ["AVAILABLE"] ["FAILED"] 3 0 =
      WaitResult.failed "FAILED" ∧
    waitForState pollSeqErr ["AVAILABLE"] ["FAILED"] 3 0 =
      WaitResult.pollError (GoErr.other "boom") ∧
    waitForState pollSeqPending ["AVAILABLE"] ["FAILED"] 5 0 =
      WaitResult.timedOut := by
  have hpre1 : ∀ k, k < 1 → (pollSeqSuccess k).2.2 = none ∧
      (["AVAILABLE"] : List String).contains (pollSeqSuccess k).2.1 = false ∧
      (["FAILED"] : List String).contains (pollSeqSuccess k).2.1 = false := by
    intro k hk
    interval_cases k
    exact ⟨rfl, by decide, by decide⟩
  have hpre2 : ∀ k, k < 1 → (pollSeqFailed k).2.2 = none ∧
      (["AVAILABLE"] : List String).contains (pollSeqFailed k).2.1 = false ∧
      (["FAILED"] : List String).contains (pollSeqFailed k).2.1 = false := by
    intro k hk
    interval_cases k
    exact ⟨rfl, by decide, by decide⟩
  have hpre3 : ∀ k, k < 1 → (pollSeqErr k).2.2 = none ∧
      (["AVAILABLE"] : List String).contains (pollSeqErr k).2.1 = false ∧
      (["FAILED"] : List String).contains (pollSeqErr k).2.1 = false := by
    intro k hk
    interval_cases k
    exact ⟨rfl, by decide, by decide⟩
  have hcA : (["AVAILABLE"] : List String).contains "CREATING" = false := by decide
  have hcF : (["FAILED"] : List String).contains "CREATING" = false := by decide
  have htime : ∀ k, k < 5 → (pollSeqPending k).2.2 = none ∧
      (["AVAILABLE"] : List String).contains (pollSeqPending k).2.1 = false ∧
      (["FAILED"] : List String).contains (pollSeqPending k).2.1 = false := by
    intro k hk
    exact ⟨rfl, hcA, hcF⟩
  refine ⟨?_, ?_, ?_, ?_⟩
  · exact (waiter_contract pollSeqSuccess pollSeqPending ["AVAILABLE"] ["FAILED"]
      ["AVAILABLE"] ["FAILED"] 3 5 1 (by omega) hpre1 htime).2.1 rfl rfl
  · exact (waiter_contract pollSeqFailed pollSeqPending ["AVAILABLE"] ["FAILED"]
      ["AVAILABLE"] ["FAILED"] 3 5 1 (by omega) hpre2 htime).2.2.1 rfl (by decide) rfl
  · exact (waiter_contract pollSeqErr pollSeqPending ["AVAILABLE"] ["FAILED"]
      ["AVAILABLE"] ["FAILED"] 3 5 1 (by omega) hpre3 htime).1
      (GoErr.other "boom") rfl
  · exact (waiter_contract pollSeqPending pollSeqPending ["AVAILABLE"] ["FAILED"]
      ["AVAILABLE"] ["FAILED"] 6 5 1 (by omega) (fun k hk => ⟨rfl, hcA, hcF⟩)
      htime).2.2.2

lemma retryPutRule_success0 (attempts : Nat → Option GoErr)
    (h : attempts 0 = none) :
    ∀ fuel, retryPutRule attempts fuel 0 = none := by
  intro fuel
  cases fuel <;> simp [retryPutRule, h]

lemma retryPutRule_nonretryable0 (attempts : Nat → Option GoErr) (e : GoErr)
    (h0 : attempts 0 = some e) (h : iamPropagationRetryable (some e) = false) :
    ∀ fuel, retryPutRule attempts fuel 0 = some e := by
  intro fuel
  cases fuel <;> simp [retryPutRule, h0, h]

lemma retryPutRule_all_retryable (attempts : Nat → Option GoErr) :
    ∀ fuel i, (∀ k, k ≤ fuel → iamPropagationRetryable (attempts (i + k)) = true) →
      retryPutRule attempts fuel i = some GoErr.timeoutSentinel := by
  intro fuel
  induction fuel with
  | zero =>
    intro i h
    have h0 := h 0 (Nat.le_refl 0)
    simp only [Nat.add_zero] at h0
    cases ha : attempts i with
    | none =>
      rw [ha] at h0
      simp [iamPropagationRetryable, errMessageContains] at h0
    | some e =>
      rw [ha] at h0
      simp [retryPutRule, ha, h0]
  | succ f ih =>
    intro i h
    have h0 := h 0 (by omega)
    simp only [Nat.add_zero] at h0
    cases ha : attempts i with
    | none =>
      rw [ha] at h0
      simp [iamPropagationRetryable, errMessageContains] at h0
    | some e =>
      rw [ha] at h0
      have hrec := ih (i + 1) (fun k hk => by
        have := h (k + 1) (by omega)
        simpa [Nat.add_assoc, Nat.add_comm 1 k] using this)
      simp [retryPutRule, ha, h0, hrec]

/-- C7: in the CloudWatch Events rule Create and Update, a PutRule error that
is a ValidationException containing "cannot be assumed by principal" is
retried within the propagation window and, when the window times out, exactly
one additional non-retried PutRule attempt decides the outcome; any
non-matching error is returned immediately, wrapped; and a successful Create
sets the composite ID from the event bus name and the rule name. -/
theorem event_rule_retry_contract (bus ruleName updId : String)
    (window winT winU : Nat) (aS aI aT aU : Nat → Option GoErr)
    (eImm eExtra : GoErr)
    (hS : aS 0 = none)
    (hI0 : aI 0 = some eImm)
    (hImm : iamPropagationRetryable (some eImm) = false)
    (hImmNT : eImm ≠ GoErr.timeoutSentinel)
    (hT : ∀ k, k ≤ winT → iamPropagationRetryable (aT k) = true)
    (hTnone : aT (winT + 1) = none)
    (hU : ∀ k, k ≤ winU → iamPropagationRetryable (aU k) = true)
    (hUe : aU (winU + 1) = some eExtra) :
    resourceAwsCloudWatchEventRuleCreate bus ruleName window aS =
      EventRuleCreateResult.created (ruleCreateResourceID bus ruleName) ∧
    resourceAwsCloudWatchEventRuleCreate bus ruleName window aI =
      EventRuleCreateResult.err ("error creating CloudWatch Events Rule (" ++
        ruleName ++ "): " ++ eImm.render) ∧
    resourceAwsCloudWatchEventRuleCreate bus ruleName winT aT =
      EventRuleCreateResult.created (ruleCreateResourceID bus ruleName) ∧
    resourceAwsCloudWatchEventRuleCreate bus ruleName winU aU =
      EventRuleCreateResult.err ("error creating CloudWatch Events Rule (" ++
        ruleName ++ "): " ++ eExtra.render) ∧
    resourceAwsCloudWatchEventRuleUpdate updId window aI =
      EventRuleUpdateResult.err ("error updating CloudWatch Events Rule (" ++
        updId ++ "): " ++ eImm.render) ∧
    resourceAwsCloudWatchEventRuleUpdate updId winT aT =
      EventRuleUpdateResult.updated := by
  have hrS := retryPutRule_success0 aS hS window
  have hrI := retryPutRule_nonretryable0 aI eImm hI0 hImm window
  have htoI := tfresourceTimedOut_some_false eImm hImmNT
  have hrT := retryPutRule_all_retryable aT winT 0 (fun k hk => by
    simpa using hT k hk)
  have hrU := retryPutRule_all_retryable aU winU 0 (fun k hk => by
    simpa using hU k hk)
  refine ⟨?_, ?_, ?_, ?_, ?_, ?_⟩
  · simp [resourceAwsCloudWatchEventRuleCreate, hrS, tfresourceTimedOut]
  · simp [resourceAwsCloudWatchEventRuleCreate, hrI, htoI]
  · simp [resourceAwsCloudWatchEventRuleCreate, hrT, tfresourceTimedOut, hTnone]
  · simp [resourceAwsCloudWatchEventRuleCreate, hrU, tfresourceTimedOut, hUe]
  · simp [resourceAwsCloudWatchEventRuleUpdate, hrI, htoI]
  · simp [resourceAwsCloudWatchEventRuleUpdate, hrT, tfresourceTimedOut, hTnone]

/-- A PutRule attempt sequence that succeeds immediately. -/
def putRuleSeqOk : Nat → Option GoErr := fun _ => none

/-- A PutRule attempt sequence that fails with a non-retryable error. -/
def putRuleSeqDenied : Nat → Option GoErr :=
  fun _ => some (GoErr.awsError "AccessDeniedException" "denied")

/-- A PutRule attempt sequence with three retryable IAM propagation errors
followed by success. -/
def putRuleSeqEventuallyOk : Nat → Option GoErr
  | 0 | 1 | 2 => some (GoErr.awsError "ValidationException"
      "role cannot be assumed by principal events.amazonaws.com")
  | _ + 3 => none

/-- A PutRule attempt sequence with three retryable IAM propagation errors
followed by a plain failure. -/
def putRuleSeqNeverOk : Nat → Option GoErr
  | 0 | 1 | 2 => some (GoErr.awsError "ValidationException"
      "role cannot be assumed by principal events.amazonaws.com")
  | _ + 3 => some (GoErr.other "still failing")

/-- C7 witness: the retry contract at four concrete PutRule outcome
sequences with a window of two retries. -/
theorem event_rule_retry_contract_witness :
    resourceAwsCloudWatchEventRuleCreate "bus-1" "rule-1" 2 putRuleSeqOk =
      EventRuleCreateResult.created (ruleCreateResourceID "bus-1" "rule-1") ∧
    resourceAwsCloudWatchEventRuleCreate "bus-1" "rule-1" 2 putRuleSeqDenied =
      EventRuleCreateResult.err ("error creating CloudWatch Events Rule (" ++
        "rule-1" ++ "): " ++ (GoErr.awsError "AccessDeniedException" "denied").render) ∧
    resourceAwsCloudWatchEventRuleCreate "bus-1" "rule-1" 2 putRuleSeqEventuallyOk =
      EventRuleCreateResult.created (ruleCreateResourceID "bus-1" "rule-1") ∧
    resourceAwsCloudWatchEventRuleCreate "bus-1" "rule-1" 2 putRuleSeqNeverOk =
      EventRuleCreateResult.err ("error creating CloudWatch Events Rule (" ++
        "rule-1" ++ "): " ++ (GoErr.other "still failing").render) ∧
    resourceAwsCloudWatchEventRuleUpdate "bus-1/rule-1" 2 putRuleSeqDenied =
      EventRuleUpdateResult.err ("error updating CloudWatch Events Rule (" ++
        "bus-1/rule-1" ++ "): " ++ (GoErr.awsError "AccessDeniedException" "denied").render) ∧
    resourceAwsCloudWatchEventRuleUpdate "bus-1/rule-1" 2 putRuleSeqEventuallyOk =
      EventRuleUpdateResult.updated :=
  event_rule_retry_contract "bus-1" "rule-1" "bus-1/rule-1" 2 2 2
    putRuleSeqOk putRuleSeqDenied putRuleSeqEventuallyOk putRuleSeqNeverOk
    (GoErr.awsError "AccessDeniedException" "denied") (GoErr.other "still failing")
    rfl rfl (by decide) (by decide)
    (by intro k hk; interval_cases k <;> decide) rfl
    (by intro k hk; interval_cases k <;> decide) rfl

/-- C10 witness: the amended Update behavior at a concrete state holding the
actual ARN under protection_group_arn. -/
theorem shield_update_tags_never_uses_arn_witness :
    shieldProtectionGroupSchemaKeys.contains "arn" = false ∧
    dGet shieldProtectionGroupSchemaKeys
      [("protection_group_arn", "arn:aws:shield::111122223333:protection-group/pg-1")]
      "arn" = none ∧
    resourceAwsShieldProtectionGroupUpdate "pg-1"
      [("protection_group_arn", "arn:aws:shield::111122223333:protection-group/pg-1")]
      true none = UpdateResult.panicked ∧
    resourceAwsShieldProtectionGroupUpdate "pg-1"
      [("protection_group_arn", "arn:aws:shield::111122223333:protection-group/pg-1")]
      true none ≠
      UpdateResult.tagsIssued "arn:aws:shield::111122223333:protection-group/pg-1" := by
  have h := shield_update_tags_never_uses_arn "pg-1"
    [("protection_group_arn", "arn:aws:shield::111122223333:protection-group/pg-1")]
  exact ⟨h.1, h.2.2.1, h.2.2.2.1,
    h.2.2.2.2 "arn:aws:shield::111122223333:protection-group/pg-1"⟩

end TfAws
